import Mathlib

/-!
Formal model of the DATASUSAnalytics text-to-SQL evaluation engine.

The definitions below are shallow embeddings, translated from the Python
sources of the repository:
  * `evaluation/metrics/base_metrics.py`   (SQL normalizer, metric base)
  * `evaluation/metrics/exact_match.py`    (Exact Match metric)
  * `evaluation/metrics/component_matching.py` and
    `evaluation/metrics/improved_sql_parser.py` (Component Matching)
  * `evaluation/metrics/execution_accuracy.py` (Execution Accuracy)
  * `evaluation/dag/base.py`               (task scheduler)
  * `evaluation/dag/tasks.py`              (aggregation)

Python strings are modelled as `String` / `List Char` (ASCII character
classes, matching the regexes used by the code), Python floats as `ℚ`,
Python exceptions as `Except String`, and Python dictionaries as
association lists with leftmost-binding lookup.
-/

namespace SQLNormalizer

/-- Python whitespace class `\s` (ASCII part), as used by `re` and `str.strip`. -/
def isPyWs (c : Char) : Bool :=
  c = ' ' || c = '\t' || c = '\n' || c = '\r' || c = '\x0b' || c = '\x0c'

/-- `str.strip()`: drop leading and trailing whitespace. -/
def stripChars (l : List Char) : List Char :=
  ((l.dropWhile isPyWs).reverse.dropWhile isPyWs).reverse

/-- Replace every whitespace character by a single space (first half of
`re.sub(r"\s+", " ", ...)`). -/
def wsToSpace (l : List Char) : List Char :=
  l.map (fun c => if isPyWs c then ' ' else c)

/-- Collapse adjacent spaces (second half of `re.sub(r"\s+", " ", ...)`). -/
def dedupSpace : List Char → List Char
  | [] => []
  | [c] => [c]
  | a :: b :: t => if a = ' ' ∧ b = ' ' then dedupSpace (b :: t) else a :: dedupSpace (b :: t)

/-- `re.sub(r"\s+", " ", s.strip())` from `_basic_normalize`. -/
def collapseWs (l : List Char) : List Char :=
  dedupSpace (wsToSpace (stripChars l))

/-- `str.rstrip(';')`: drop trailing semicolons. -/
def rstripSemi (l : List Char) : List Char :=
  (l.reverse.dropWhile (fun c => c = ';')).reverse

/-- Drop everything from the first `--` to the end of the line
(`re.sub(r"--.*$", "", line)` on a single line; `.` does not match `\n`). -/
def stripLineTail : List Char → List Char
  | [] => []
  | '-' :: '-' :: _ => []
  | c :: t => c :: stripLineTail t

/-- Split a character list on newline characters. -/
def splitNl : List Char → List (List Char)
  | [] => [[]]
  | '\n' :: t => [] :: splitNl t
  | c :: t =>
    match splitNl t with
    | [] => [[c]]
    | h :: r => (c :: h) :: r

/-- Rejoin lines with newline characters. -/
def joinNl : List (List Char) → List Char
  | [] => []
  | [l] => l
  | l :: r => l ++ '\n' :: joinNl r

/-- `re.sub(r"--.*$", "", sql, flags=re.MULTILINE)`: per line, remove from the
first `--` onwards. -/
def removeLineComments (l : List Char) : List Char :=
  joinNl ((splitNl l).map stripLineTail)

/-- Scan for the first `*/` and return the suffix after it, if any. -/
def dropToClose : List Char → Option (List Char)
  | [] => none
  | '*' :: '/' :: t => some t
  | _ :: t => dropToClose t

/-- Fuelled worker for block-comment removal; the fuel is the input length, so
it never runs out. -/
def rbcAux : Nat → List Char → List Char
  | 0, l => l
  | _ + 1, [] => []
  | n + 1, '/' :: '*' :: t =>
    match dropToClose t with
    | some rest => rbcAux n rest
    | none => '/' :: '*' :: t
  | n + 1, c :: t => c :: rbcAux n t

/-- `re.sub(r"/\*.*?\*/", "", sql, flags=re.DOTALL)`: remove each leftmost
`/*`...`*/` span (shortest closing), leaving an unterminated opener alone. -/
def removeBlockComments (l : List Char) : List Char :=
  rbcAux l.length l

/-- `SQLNormalizer._basic_normalize`: remove line comments, remove block
comments, collapse whitespace after stripping, drop trailing semicolons
(the regex fallback taken only when sqlparse raises). -/
def basic_normalizeL (l : List Char) : List Char :=
  rstripSemi (collapseWs (removeBlockComments (removeLineComments l)))

/-- Python `\w` word character (ASCII): letters, digits, underscore. -/
def isWordChar (c : Char) : Bool :=
  c.isAlpha || c.isDigit || c = '_'

/-- Maximal runs of characters agreeing on a predicate. -/
def runsBy (p : Char → Bool) : List Char → List (List Char)
  | [] => []
  | c :: t =>
    match runsBy p t with
    | [] => [[c]]
    | (d :: g) :: r =>
      if p c = p d then (c :: d :: g) :: r else [c] :: (d :: g) :: r
    | [] :: r => [c] :: [] :: r

/-- SQL reserved words recognized as Keyword tokens by the sqlparse
tokenizer (restricted to the common SQL keywords that occur in this
repository's queries; aggregate function names are Name tokens in sqlparse
and are deliberately absent). `_normalize_token` upper-cases exactly these. -/
def sqlKeywords : List String :=
  ["SELECT", "FROM", "WHERE", "GROUP", "BY", "HAVING", "ORDER", "LIMIT",
   "JOIN", "INNER", "LEFT", "RIGHT", "FULL", "OUTER", "CROSS", "ON", "AS",
   "AND", "OR", "NOT", "IN", "IS", "NULL", "LIKE", "BETWEEN", "EXISTS",
   "DISTINCT", "ALL", "ANY", "SOME", "CASE", "WHEN", "THEN", "ELSE", "END",
   "UNION", "ASC", "DESC", "OFFSET", "INSERT", "UPDATE", "DELETE", "SET",
   "VALUES", "INTO"]

/-- The keyword upper-casing performed by `_normalize_statement` via
`_normalize_token` on Keyword tokens: upper-case each maximal word-character
run of the raw text that the tokenizer reads as a keyword. Tokenization
happens before comment removal, so word runs interrupted by a comment are
not keywords at this stage (they reassemble only in the joined output). -/
def upKeywordWords (l : List Char) : List Char :=
  ((runsBy isWordChar l).map (fun g =>
    if (g.headD ' ' |> isWordChar)
        ∧ g.map Char.toUpper ∈ sqlKeywords.map String.data then
      g.map Char.toUpper
    else g)).flatten

/-- `SQLNormalizer._normalize_statement`, the structural (sqlparse) path of
`normalize_sql`: walk the token stream upper-casing keywords and skipping
comments while collapsing whitespace, join, strip, collapse whitespace runs,
and drop trailing semicolons. -/
def normalize_statementL (l : List Char) : List Char :=
  rstripSemi (collapseWs (removeBlockComments (removeLineComments (upKeywordWords l))))

/-- `SQLNormalizer.normalize_sql`. The Python entry point returns "" for
empty/whitespace-only input; otherwise `sqlparse.parse` succeeds on every
such input, so the structural path `_normalize_statement` (keyword
upper-casing included) is the one taken, `_basic_normalize` being its
comment/whitespace/semicolon closing steps without the casing. -/
def normalize_sql (s : String) : String :=
  if stripChars s.data = [] then "" else String.mk (normalize_statementL s.data)

end SQLNormalizer


/-! ## Data model (`base_metrics.py`, `execution_accuracy.py`)

Database cell values as returned by the driver (`execution_accuracy.py`
normalizes exactly these shapes): Python ints, floats, strings, booleans,
`None`, datetime-like objects (anything with `isoformat`, modelled by their
ISO rendering), and arbitrary other objects (modelled by their `str()`). -/

inductive DBValue where
  | int (i : ℤ)
  | float (q : ℚ)
  | str (s : String)
  | bool (b : Bool)
  | null
  | datetime (iso : String)
  | other (repr : String)
deriving DecidableEq

/-- A result row: Python tuple of values. -/
abbrev DBRow := List DBValue

/-- The execution-handle contract: `execute(sql)` yields rows or an error
message. A Python exception inside a query is `Except.error`. -/
abbrev DBConn := String → Except String (List DBRow)

/-- `MetricResult` from `base_metrics.py` (the diagnostic `details` dict is
informational only and not modelled; every claim below concerns `score`,
`is_correct` and `error_message`). -/
structure MetricResult where
  metric_name : String
  score : ℚ
  is_correct : Bool
  error_message : Option String := none
deriving DecidableEq

/-- `EvaluationContext` from `base_metrics.py`. -/
structure EvaluationContext where
  question_id : String
  question : String
  ground_truth_sql : String
  predicted_sql : String
  database_connection : Option DBConn := none
  tables_info : Option String := none

/-- `BaseMetric._create_result`. -/
def create_result (name : String) (score : ℚ) (is_correct : Bool)
    (error_message : Option String) : MetricResult :=
  ⟨name, score, is_correct, error_message⟩

/-- `BaseMetric._safe_evaluate`: run the inner evaluation; any raised
exception is converted to a zero-score `MetricResult` carrying the message. -/
def safe_evaluate (name : String) (f : EvaluationContext → Except String MetricResult)
    (context : EvaluationContext) : MetricResult :=
  match f context with
  | .ok r => r
  | .error e => create_result name 0 false (some ("Error in " ++ name ++ ": " ++ e))

/-! ## Exact Match metric (`exact_match.py`) -/

namespace ExactMatchMetric

def name : String := "Exact Match (EM)"

/-- `ExactMatchMetric._evaluate_exact_match` (the difference-analysis block
feeds only the unmodelled diagnostic `details`). -/
def evaluate_exact_match (context : EvaluationContext) : MetricResult :=
  if context.ground_truth_sql = "" ∨ context.predicted_sql = "" then
    create_result name 0 false none
  else
    let gt_normalized := SQLNormalizer.normalize_sql context.ground_truth_sql
    let pred_normalized := SQLNormalizer.normalize_sql context.predicted_sql
    let is_exact_match := gt_normalized = pred_normalized
    create_result name (if is_exact_match then 1 else 0) (decide is_exact_match) none

/-- `ExactMatchMetric.evaluate` delegates to `_safe_evaluate`; the inner
function is total (it raises nothing), hence the `.ok` injection. -/
def evaluate (context : EvaluationContext) : MetricResult :=
  safe_evaluate name (fun c => .ok (evaluate_exact_match c)) context

end ExactMatchMetric

/-! ## Execution Accuracy metric (`execution_accuracy.py`) -/

namespace ExecutionAccuracyMetric

def name : String := "Execution Accuracy (EX)"

/-- Round-half-to-even on rationals, modelling Python `round(x, 10)` on the
value `x * 10^10`. -/
def pyRoundHalfEven (x : ℚ) : ℤ :=
  let f := ⌊x⌋
  let r := x - f
  if r < 1/2 then f
  else if (1:ℚ)/2 < r then f + 1
  else if f % 2 = 0 then f else f + 1

/-- `ExecutionAccuracyMetric._normalize_value`. Note that a Python `bool`
satisfies `isinstance(value, int)` and is returned unchanged by the numeric
branch, which coincides with the dedicated boolean branch. -/
def normalize_value : DBValue → DBValue
  | .int i => .int i
  | .float q => .float ((pyRoundHalfEven (q * 10 ^ 10) : ℚ) / 10 ^ 10)
  | .str s => .str (String.mk (SQLNormalizer.stripChars s.data))
  | .bool b => .bool b
  | .null => .null
  | .datetime iso => .str iso
  | .other r => .str r

/-- `ExecutionAccuracyMetric._normalize_results`. -/
def normalize_results (results : List DBRow) : List DBRow :=
  results.map (fun row => row.map normalize_value)

/-- `ExecutionAccuracyMetric._compare_results` (boolean component; the
comparison-details dict it also returns is diagnostic only and never alters
the outcome). `Counter` equality on tuple lists is multiset equality. -/
def compare_results (gt_results pred_results : List DBRow) : Bool :=
  if gt_results.length ≠ pred_results.length then false
  else if gt_results.length = 0 then true
  else decide ((normalize_results gt_results : Multiset DBRow)
      = (normalize_results pred_results : Multiset DBRow))

/-- `ExecutionAccuracyMetric._evaluate_execution`. Both statements are run
first; a ground-truth failure is reported before a predicted-statement
failure; otherwise the result multisets are compared. -/
def evaluate_execution (context : EvaluationContext) : MetricResult :=
  if context.ground_truth_sql = "" ∨ context.predicted_sql = "" then
    create_result name 0 false none
  else
    match context.database_connection with
    | none =>
      create_result name 0 false
        (some "Database connection required for execution accuracy")
    | some conn =>
      match conn context.ground_truth_sql, conn context.predicted_sql with
      | .error gt_error, _ =>
        create_result name 0 false (some ("Ground truth query failed: " ++ gt_error))
      | .ok _, .error pred_error =>
        create_result name 0 false (some ("Predicted query failed: " ++ pred_error))
      | .ok gt_result, .ok pred_result =>
        let results_match := compare_results gt_result pred_result
        create_result name (if results_match then 1 else 0) results_match none

/-- `ExecutionAccuracyMetric.evaluate` delegates to `_safe_evaluate`. -/
def evaluate (context : EvaluationContext) : MetricResult :=
  safe_evaluate name (fun c => .ok (evaluate_execution c)) context

end ExecutionAccuracyMetric


/-! ## Improved select-item comparator (`improved_sql_parser.py`) -/

namespace ImprovedColumnComparator

open SQLNormalizer (isPyWs stripChars wsToSpace dedupSpace isWordChar runsBy)

/-- The aggregate names upper-cased by `_normalize_expression`. -/
def funcNames : List String := ["count", "sum", "avg", "min", "max", "extract"]

/-- `re.sub(r"\b(count|sum|avg|min|max|extract)\b", upper, expr, re.I)`:
upper-case each maximal word-character run equal to one of the names. -/
def upFuncWords (l : List Char) : List Char :=
  ((runsBy isWordChar l).map (fun g =>
    if (g.headD ' ' |> isWordChar) ∧ g.map Char.toLower ∈ funcNames.map String.data then
      g.map Char.toUpper
    else g)).flatten

/-- `ImprovedColumnComparator._normalize_expression`: strip, upper-case the
aggregate function names, collapse whitespace runs. -/
def normalize_expression (expression : String) : String :=
  String.mk (dedupSpace (wsToSpace (upFuncWords (stripChars expression.data))))

/-- `ImprovedColumnComparator._create_normalized_expression`: the alias is
replaced by the canonical `<alias>` marker (its spelling is dropped). -/
def create_normalized_expression (expression : String) (_alias : String) : String :=
  normalize_expression expression ++ " AS <alias>"

/-- Try to read `\s+AS\s+` (case-insensitive, at least one whitespace on each
side) at the head of `rest`; on success return the suffix after the second
whitespace run, provided it is non-empty and newline-free (the `(.+)$` group
of the Python pattern). -/
def checkAsAt (rest : List Char) : Option (List Char) :=
  let r1 := rest.dropWhile isPyWs
  if r1.length = rest.length then none
  else
    match r1 with
    | a :: s :: r2 =>
      if (a = 'A' ∨ a = 'a') ∧ (s = 'S' ∨ s = 's') then
        let r3 := r2.dropWhile isPyWs
        if r3.length = r2.length then none
        else if r3 ≠ [] ∧ '\n' ∉ r3 then some r3 else none
      else none
    | _ => none

/-- Leftmost split of `re.match(r"^(.+?)\s+AS\s+(.+)$", item, re.I)`: the
shortest non-empty newline-free prefix followed by whitespace, `AS`,
whitespace, and a non-empty newline-free remainder. -/
def findAsSplit : List Char → List Char → Option (List Char × List Char)
  | _, [] => none
  | preRev, c :: r =>
    match checkAsAt (c :: r) with
    | some suffix =>
      if preRev ≠ [] ∧ '\n' ∉ preRev then some (preRev.reverse, suffix)
      else findAsSplit (c :: preRev) r
    | none => findAsSplit (c :: preRev) r

/-- Keywords that a trailing bare identifier may not equal if it is to count
as an implicit alias. -/
def aliasStopWords : List String :=
  ["FROM", "WHERE", "GROUP", "ORDER", "HAVING", "LIMIT", "AND", "OR", "NOT",
   "IN", "EXISTS", "LIKE", "BETWEEN", "IS", "NULL", "TRUE", "FALSE",
   "ASC", "DESC", "DISTINCT", "ALL", "ANY", "SOME"]

/-- `re.match(r"^[a-zA-Z_][a-zA-Z0-9_]*$", w)`: a plain identifier. -/
def isIdentWord (w : List Char) : Bool :=
  match w with
  | [] => false
  | c :: t => (c.isAlpha || c = '_') && t.all isWordChar

/-- `re.match(r".+\([^)]*\)$", w)`: `w` ends with a parenthesised suffix whose
opener is preceded by a non-empty newline-free prefix. -/
def looksLikeFuncCall (w : List Char) : Bool :=
  match w.reverse with
  | ')' :: rest =>
    let q := rest.takeWhile (fun c => c ≠ '(')
    if q.all (fun c => c ≠ ')') then
      match rest.drop q.length with
      | '(' :: preRev => decide (preRev ≠ [] ∧ '\n' ∉ preRev)
      | _ => false
    else false
  | _ => false

/-- `str.split()`: whitespace-run splitting, no empty words. -/
def pySplitWs (l : List Char) : List (List Char) :=
  (runsBy isPyWs l).filter (fun g => !(g.headD ' ' |> isPyWs))

/-- Join words with single spaces (`" ".join(words)`). -/
def joinSpace : List (List Char) → List Char
  | [] => []
  | [w] => w
  | w :: r => w ++ ' ' :: joinSpace r

/-- `ImprovedColumnComparator._normalize_select_item`: explicit `AS` alias,
else a trailing bare-identifier alias (not a keyword, not a call), else the
expression itself. -/
def normalize_select_item (item : String) : String :=
  let it := stripChars item.data
  match findAsSplit [] it with
  | some (expr, al) =>
    create_normalized_expression (String.mk (stripChars expr)) (String.mk (stripChars al))
  | none =>
    let words := pySplitWs it
    if h : 2 ≤ words.length then
      let potential_alias := words.getLast (by
        intro hnil
        rw [hnil] at h
        simp at h)
      if isIdentWord potential_alias
          ∧ potential_alias.map Char.toUpper ∉ aliasStopWords.map String.data
          ∧ ¬looksLikeFuncCall potential_alias then
        create_normalized_expression
          (String.mk (joinSpace words.dropLast)) (String.mk potential_alias)
      else normalize_expression (String.mk it)
    else normalize_expression (String.mk it)

/-- The canonical alias marker appended by `_create_normalized_expression`. -/
def aliasMarker : List Char := " AS <alias>".data

/-- Worker for the Python substring test `" AS <alias>" in item`. -/
def hasMarkerL : List Char → Bool
  | [] => false
  | c :: t => aliasMarker.isPrefixOf (c :: t) || hasMarkerL t

/-- `" AS <alias>" in item`. -/
def hasAliasMarker (item : String) : Bool :=
  hasMarkerL item.data

/-- Fuelled worker for `str.replace(" AS <alias>", "")`: leftmost,
non-overlapping, all occurrences. -/
def stripMarkerAux : Nat → List Char → List Char
  | 0, l => l
  | _ + 1, [] => []
  | n + 1, c :: t =>
    if aliasMarker.isPrefixOf (c :: t) then stripMarkerAux n (t.drop 10)
    else c :: stripMarkerAux n t

/-- `item.replace(" AS <alias>", "")`: the base expression of an item. -/
def stripMarker (item : String) : String :=
  String.mk (stripMarkerAux item.data.length item.data)

/-- `ImprovedColumnComparator._compare_individual_items`. -/
def compare_individual_items (gt_item pred_item : String) : ℚ :=
  if gt_item = pred_item then 1
  else
    let gt_has_alias := hasAliasMarker gt_item
    let pred_has_alias := hasAliasMarker pred_item
    if gt_has_alias ∧ pred_has_alias then
      if stripMarker gt_item = stripMarker pred_item then 1 else 0
    else if gt_has_alias ∧ ¬pred_has_alias then
      if stripMarker gt_item = pred_item then 7/10 else 0
    else if ¬gt_has_alias ∧ pred_has_alias then
      if gt_item = stripMarker pred_item then 7/10 else 0
    else 0

/-- Jaccard index over the two item sets (`len(g∩p)/len(g∪p)`, `0.0` on an
empty union), as computed in the unequal-length branch. -/
def jaccardSets (gt_normalized pred_normalized : List String) : ℚ :=
  let gs := gt_normalized.toFinset
  let ps := pred_normalized.toFinset
  let union := (gs ∪ ps).card
  if union = 0 then 0 else ((gs ∩ ps).card : ℚ) / union

/-- `ImprovedColumnComparator._calculate_flexible_similarity`: with equal item
counts, average over each reference item of its best match among the
predicted items; otherwise plain Jaccard over the item sets. -/
def calculate_flexible_similarity (gt_normalized pred_normalized : List String) : ℚ :=
  if gt_normalized.length ≠ pred_normalized.length then
    jaccardSets gt_normalized pred_normalized
  else
    let total_similarity :=
      (gt_normalized.map (fun gt_item =>
        (pred_normalized.map (compare_individual_items gt_item)).foldl max 0)).sum
    if gt_normalized = [] then 0 else total_similarity / gt_normalized.length

/-- `ImprovedColumnComparator.compare_select_items` (its
`jaccard_similarity` field, the score used by the metric). -/
def compare_select_items_sim (gt_items pred_items : List String) : ℚ :=
  let gt_normalized := gt_items.map normalize_select_item
  let pred_normalized := pred_items.map normalize_select_item
  if gt_normalized = [] ∧ pred_normalized = [] then 1
  else if gt_normalized = [] ∨ pred_normalized = [] then 0
  else calculate_flexible_similarity gt_normalized pred_normalized

/-- Split a character list on a separator character (`str.split(sep)`,
keeping empty pieces). -/
def splitOnChar (sep : Char) : List Char → List (List Char)
  | [] => [[]]
  | c :: t =>
    if c = sep then [] :: splitOnChar sep t
    else
      match splitOnChar sep t with
      | [] => [[c]]
      | h :: r => (c :: h) :: r

/-- `re.sub(r"^\s*SELECT\s+", "", clause, re.I)` on an already-stripped
clause: drop a leading `SELECT` keyword followed by whitespace. -/
def dropSelectKw (l : List Char) : List Char :=
  match l with
  | s :: e :: l2 :: e2 :: c :: t2 :: rest =>
    if [s, e, l2, e2, c, t2].map Char.toUpper = "SELECT".data
        ∧ (rest.headD 'x' |> isPyWs) then
      rest.dropWhile isPyWs
    else l
  | _ => l

/-- `ImprovedColumnComparator.extract_select_items`: drop the keyword, split
on every comma, strip and normalize each non-empty piece. -/
def extract_select_items (select_clause : String) : List String :=
  if stripChars select_clause.data = [] then []
  else
    let clause := dropSelectKw (stripChars select_clause.data)
    ((splitOnChar ',' clause).map (fun item => stripChars item)).filterMap
      (fun item => if item = [] then none
        else some (normalize_select_item (String.mk item)))

end ImprovedColumnComparator


/-! ## Component Matching metric (`component_matching.py`) -/

/-- The clause kinds scored by Component Matching, i.e. the keys of the
`clause_weights` dict. -/
inductive Clause where
  | select | from_ | where_ | joins | group_by | order_by | having | limit
deriving DecidableEq

/-- A `ClauseSet`: the component dict produced by the SQL parser, one (possibly
empty) text per clause kind. -/
abbrev ClauseSet := Clause → String

namespace ComponentMatchingMetric

open SQLNormalizer (isPyWs stripChars isWordChar runsBy)
open ImprovedColumnComparator (splitOnChar)

def name : String := "Component Matching (CM)"

/-- `self.clause_weights`, in dict insertion order. -/
def clauseKinds : List Clause :=
  [.select, .from_, .where_, .joins, .group_by, .order_by, .having, .limit]

/-- The fixed clause weights (Python floats `0.25, 0.20, 0.20, 0.15, 0.10,
0.05, 0.03, 0.02` as exact rationals). -/
def clause_weights : Clause → ℚ
  | .select => 25/100
  | .from_ => 20/100
  | .where_ => 20/100
  | .joins => 15/100
  | .group_by => 10/100
  | .order_by => 5/100
  | .having => 3/100
  | .limit => 2/100

/-- `re.sub(r"^\s*FROM\s+", "", clause, re.I)` on a stripped clause. -/
def dropFromKw (l : List Char) : List Char :=
  match l with
  | f :: r :: o :: m :: rest =>
    if [f, r, o, m].map Char.toUpper = "FROM".data ∧ (rest.headD 'x' |> isPyWs) then
      rest.dropWhile isPyWs
    else l
  | _ => l

/-- `re.sub(r"^\s*WHERE\s+", "", clause, re.I)` on a stripped clause. -/
def dropWhereKw (l : List Char) : List Char :=
  match l with
  | w :: h :: e :: r :: e2 :: rest =>
    if [w, h, e, r, e2].map Char.toUpper = "WHERE".data ∧ (rest.headD 'x' |> isPyWs) then
      rest.dropWhile isPyWs
    else l
  | _ => l

/-- `re.sub(r"\s+(AS\s+)?\w+\s*$", "", table, re.I)`: remove a trailing
whitespace-separated alias word, with an optional standalone `AS` before it. -/
def stripTableAlias (t : List Char) : List Char :=
  let rev := t.reverse
  let afterWs := rev.dropWhile isPyWs
  let w := afterWs.takeWhile isWordChar
  if w = [] then t
  else
    let rest := afterWs.drop w.length
    let ws1 := rest.takeWhile isPyWs
    if ws1 = [] then t
    else
      let rest2 := rest.drop ws1.length
      match rest2 with
      | s :: a :: rest3 =>
        if (s = 'S' ∨ s = 's') ∧ (a = 'A' ∨ a = 'a') then
          let ws2 := rest3.takeWhile isPyWs
          if ws2 = [] then rest2.reverse
          else (rest3.drop ws2.length).reverse
        else rest2.reverse
      | _ => rest2.reverse

/-- Quote characters stripped from table names (`strip('"\'` + backquote)`). -/
def isQuoteChar (c : Char) : Bool :=
  c = '"' || c = '\'' || c.toNat = 96

/-- `str.strip('"\'` + backquote)` on a table chunk. -/
def stripQuotes (l : List Char) : List Char :=
  ((l.dropWhile isQuoteChar).reverse.dropWhile isQuoteChar).reverse

/-- `ComponentMatchingMetric._extract_table_names`. -/
def extract_table_names (from_clause : String) : List String :=
  if stripChars from_clause.data = [] then []
  else
    let clause := dropFromKw (stripChars from_clause.data)
    ((splitOnChar ',' clause).map stripChars).filterMap (fun table =>
      if table = [] then none
      else some (String.mk (stripQuotes (stripChars (stripTableAlias table)))))

/-- Recognize `(AND|OR)\s+` (case-insensitive) at the head of a list,
returning the remainder after the trailing whitespace run. -/
def matchBoolKw (l : List Char) : Option (List Char) :=
  match l with
  | a :: b :: c :: r =>
    if [a, b, c].map Char.toUpper = "AND".data ∧ (r.headD 'x' |> isPyWs) then
      some (r.dropWhile isPyWs)
    else if [a, b].map Char.toUpper = "OR".data ∧ isPyWs c then
      some ((c :: r).dropWhile isPyWs)
    else none
  | _ => none

/-- Fuelled worker for `re.split(r"\s+(AND|OR)\s+", clause, re.I)`:
scan for a whitespace run followed by a boolean keyword and whitespace
(leftmost, greedy runs), splitting there. -/
def splitBoolAux : Nat → List Char → List Char → List (List Char)
  | 0, acc, l => [acc.reverse ++ l]
  | _ + 1, acc, [] => [acc.reverse]
  | n + 1, acc, c :: t =>
    if isPyWs c then
      let ws := (c :: t).takeWhile isPyWs
      let rest := (c :: t).drop ws.length
      match matchBoolKw rest with
      | some rest2 => acc.reverse :: splitBoolAux n [] rest2
      | none => splitBoolAux n (ws.reverse ++ acc) rest
    else splitBoolAux n (c :: acc) t

/-- The non-separator pieces of `re.split(r"\s+(AND|OR)\s+", clause, re.I)`. -/
def splitBoolOps (l : List Char) : List (List Char) :=
  splitBoolAux l.length [] l

/-- `ComponentMatchingMetric._extract_conditions`: split the `WHERE` body on
`AND`/`OR`, drop pieces that are themselves the keywords, normalize each, and
keep the non-empty ones. -/
def extract_conditions (where_clause : String) : List String :=
  if stripChars where_clause.data = [] then []
  else
    let clause := dropWhereKw (stripChars where_clause.data)
    (splitBoolOps clause).filterMap (fun part =>
      if part.map Char.toUpper = "AND".data ∨ part.map Char.toUpper = "OR".data then none
      else
        let normalized := SQLNormalizer.normalize_sql (String.mk (stripChars part))
        if normalized = "" then none else some normalized)

/-- Jaccard score between token lists-as-sets (`len(g∩p)/len(g∪p)`). -/
def jaccardScore (gt pred : List String) : ℚ :=
  let gs := gt.toFinset
  let ps := pred.toFinset
  let union := (gs ∪ ps).card
  if union = 0 then 0 else ((gs ∩ ps).card : ℚ) / union

/-- `ComponentMatchingMetric._evaluate_select_clause` (score component). -/
def evaluate_select_clause (gt_select pred_select : String) : ℚ :=
  if stripChars gt_select.data = [] ∧ stripChars pred_select.data = [] then 1
  else if stripChars gt_select.data = [] ∨ stripChars pred_select.data = [] then 0
  else
    ImprovedColumnComparator.compare_select_items_sim
      (ImprovedColumnComparator.extract_select_items gt_select)
      (ImprovedColumnComparator.extract_select_items pred_select)

/-- `ComponentMatchingMetric._evaluate_from_clause` (score component). -/
def evaluate_from_clause (gt_from pred_from : String) : ℚ :=
  if stripChars gt_from.data = [] ∧ stripChars pred_from.data = [] then 1
  else if stripChars gt_from.data = [] ∨ stripChars pred_from.data = [] then 0
  else
    let gt_set := (extract_table_names gt_from).toFinset
    let pred_set := (extract_table_names pred_from).toFinset
    if gt_set = ∅ ∧ pred_set = ∅ then 1
    else if gt_set = ∅ ∨ pred_set = ∅ then 0
    else jaccardScore (extract_table_names gt_from) (extract_table_names pred_from)

/-- `ComponentMatchingMetric._evaluate_where_clause` (score component). -/
def evaluate_where_clause (gt_where pred_where : String) : ℚ :=
  if stripChars gt_where.data = [] ∧ stripChars pred_where.data = [] then 1
  else if stripChars gt_where.data = [] ∨ stripChars pred_where.data = [] then 0
  else
    let gt_set := (extract_conditions gt_where).toFinset
    let pred_set := (extract_conditions pred_where).toFinset
    if gt_set = ∅ ∧ pred_set = ∅ then 1
    else if gt_set = ∅ ∨ pred_set = ∅ then 0
    else jaccardScore (extract_conditions gt_where) (extract_conditions pred_where)

/-- `ComponentMatchingMetric._evaluate_generic_clause` (score component):
normalized exact comparison. -/
def evaluate_generic_clause (gt_clause pred_clause : String) : ℚ :=
  if stripChars gt_clause.data = [] ∧ stripChars pred_clause.data = [] then 1
  else if stripChars gt_clause.data = [] ∨ stripChars pred_clause.data = [] then 0
  else
    if SQLNormalizer.normalize_sql gt_clause = SQLNormalizer.normalize_sql pred_clause
    then 1 else 0

/-- Maximal digit runs, i.e. `re.findall(r"\d+", clause)`. -/
def digitRuns (l : List Char) : List (List Char) :=
  (runsBy Char.isDigit l).filter (fun g => g.headD ' ' |>.isDigit)

/-- `ComponentMatchingMetric._evaluate_limit_clause` (score component):
compare the extracted numeric literals. -/
def evaluate_limit_clause (gt_limit pred_limit : String) : ℚ :=
  if stripChars gt_limit.data = [] ∧ stripChars pred_limit.data = [] then 1
  else if stripChars gt_limit.data = [] ∨ stripChars pred_limit.data = [] then 0
  else if digitRuns gt_limit.data = digitRuns pred_limit.data then 1 else 0

/-- `ComponentMatchingMetric._evaluate_component` dispatch (JOIN text is
scored by the generic clause comparison). -/
def evaluate_component : Clause → String → String → ℚ
  | .select => evaluate_select_clause
  | .from_ => evaluate_from_clause
  | .where_ => evaluate_where_clause
  | .joins => evaluate_generic_clause
  | .group_by => evaluate_generic_clause
  | .order_by => evaluate_generic_clause
  | .having => evaluate_generic_clause
  | .limit => evaluate_limit_clause

/-- `ComponentMatchingMetric._evaluate_components`. The component extractor
(`ImprovedSQLParser.extract_components`, a two-tier sqlparse/regex parser) is
taken as a parameter: every theorem below holds for an arbitrary extractor,
hence for the implemented one. -/
def evaluate_components (extract : String → ClauseSet)
    (context : EvaluationContext) : MetricResult :=
  if context.ground_truth_sql = "" ∨ context.predicted_sql = "" then
    create_result name 0 false none
  else
    let gt_components := extract context.ground_truth_sql
    let pred_components := extract context.predicted_sql
    let overall_score := (clauseKinds.map (fun k =>
      evaluate_component k (gt_components k) (pred_components k) * clause_weights k)).sum
    create_result name overall_score (decide (overall_score ≥ 8/10)) none

/-- `ComponentMatchingMetric.evaluate` delegates to `_safe_evaluate`. -/
def evaluate (extract : String → ClauseSet) (context : EvaluationContext) : MetricResult :=
  safe_evaluate name (fun c => .ok (evaluate_components extract c)) context

end ComponentMatchingMetric

/-! ## Task scheduler (`dag/base.py`) -/

namespace DAG

/-- `TaskResult` (timing and timestamp fields are wall-clock bookkeeping and
not modelled). The payload type is a parameter; `data` is `none` exactly when
Python stores `None`. -/
structure TaskResult (α : Type) where
  task_name : String
  success : Bool
  data : Option α := none
  error : Option String := none
deriving DecidableEq

/-- `TaskDefinition`: the executable takes the named inputs (a dict, modelled
as an association list with leftmost binding) and either returns a payload or
raises. -/
structure TaskDefinition (α : Type) where
  name : String
  func : List (String × Option α) → Except String α
  depends_on : List String

/-- The dependency-failure `TaskResult` recorded by `execute`. -/
def depFailResult (α : Type) (task_name dep_name : String) : TaskResult α :=
  { task_name := task_name, success := false,
    error := some ("Dependency '" ++ dep_name ++ "' failed") }

/-- One iteration of the task loop in `EvaluationDAG.execute`: gather inputs
from `initial_data` and the dependencies' results; a failed dependency writes
a dependency-failure result for this task into `results` (the `continue`
statement it is followed by continues the inner dependency loop); afterwards
the executable is run and its outcome is stored under the task's name,
overwriting. Dict update is modelled by prepending (lookup takes the newest
binding). -/
def processTask (α : Type) (initial_data : List (String × Option α))
    (results : List (String × TaskResult α)) (task : TaskDefinition α) :
    List (String × TaskResult α) :=
  let step := task.depends_on.foldl
    (fun (st : List (String × Option α) × List (String × TaskResult α)) dep_name =>
      match st.2.lookup dep_name with
      | none => st
      | some dep_result =>
        if dep_result.success then ((dep_name, dep_result.data) :: st.1, st.2)
        else (st.1, (task.name, depFailResult α task.name dep_name) :: st.2))
    (initial_data, results)
  match task.func step.1 with
  | .ok result_data =>
    (task.name, { task_name := task.name, success := true, data := some result_data })
      :: step.2
  | .error e =>
    (task.name, { task_name := task.name, success := false, error := some e }) :: step.2

/-- `EvaluationDAG.execute` over a task list already in topological order
(`get_execution_order`); results start from the empty dict. -/
def execute (α : Type) (tasks : List (TaskDefinition α))
    (initial_data : List (String × Option α)) : List (String × TaskResult α) :=
  tasks.foldl (processTask α initial_data) []

end DAG

/-! ## Aggregation (`dag/tasks.py`, `aggregate_results`) -/

/-- Per-metric block of `aggregate_results`. -/
structure AggregatedMetric where
  average_score : ℚ
  accuracy : ℚ
  perfect_matches : ℕ
  total_evaluated : ℕ
deriving DecidableEq

/-- `aggregate_results` statistics for one metric's score list: mean score,
fraction of scores `>= 0.8`, count of scores `== 1.0`. -/
def aggregate_metric (scores : List ℚ) : AggregatedMetric :=
  if scores = [] then ⟨0, 0, 0, 0⟩
  else
    { average_score := scores.sum / scores.length
      accuracy := (scores.countP (fun s => 8/10 ≤ s) : ℚ) / scores.length
      perfect_matches := scores.countP (fun s => s = 1)
      total_evaluated := scores.length }

/-- The property of Component Matching asserted by the specification: the
returned score is the weighted sum of the eight per-clause scores, each
clause score lies in `[0, 1]`, the weights sum to `1`, and correctness is
exactly the `0.8` threshold on the weighted sum. -/
def ComponentMatchingSpec (extract : String → ClauseSet)
    (context : EvaluationContext) : Prop :=
  (ComponentMatchingMetric.evaluate extract context).score
      = (ComponentMatchingMetric.clauseKinds.map (fun k =>
          ComponentMatchingMetric.evaluate_component k
              (extract context.ground_truth_sql k) (extract context.predicted_sql k)
            * ComponentMatchingMetric.clause_weights k)).sum
  ∧ (∀ k ∈ ComponentMatchingMetric.clauseKinds,
      0 ≤ ComponentMatchingMetric.evaluate_component k
            (extract context.ground_truth_sql k) (extract context.predicted_sql k)
      ∧ ComponentMatchingMetric.evaluate_component k
            (extract context.ground_truth_sql k) (extract context.predicted_sql k) ≤ 1)
  ∧ (ComponentMatchingMetric.clauseKinds.map ComponentMatchingMetric.clause_weights).sum = 1
  ∧ ((ComponentMatchingMetric.evaluate extract context).is_correct = true
      ↔ 8/10 ≤ (ComponentMatchingMetric.evaluate extract context).score)

/-- The aggregation property asserted by the specification for one metric's
result list: the reported average is the arithmetic mean of the scores and
the reported accuracy is the fraction of results the metric itself marked
correct. -/
def AggregationSpec (rs : List MetricResult) : Prop :=
  (aggregate_metric (rs.map MetricResult.score)).average_score
      = (rs.map MetricResult.score).sum / rs.length
  ∧ (aggregate_metric (rs.map MetricResult.score)).accuracy
      = (rs.countP (fun r => r.is_correct) : ℚ) / rs.length

/-! ## Helper lemmas about the normalizer pipeline -/

namespace SQLNormalizer

theorem head?_dropWhile_not (p : Char → Bool) (l : List Char) {c : Char}
    (h : (l.dropWhile p).head? = some c) : p c = false := by
  induction l with
  | nil => simp [List.dropWhile] at h
  | cons a t ih =>
    rw [List.dropWhile] at h
    by_cases ha : p a = true
    · rw [ha] at h
      exact ih h
    · simp only [Bool.not_eq_true] at ha
      rw [ha] at h
      simp only [List.head?_cons, Option.some.injEq] at h
      exact h ▸ ha

theorem getLast?_eq_head?_reverse (l : List Char) : l.getLast? = l.reverse.head? := by
  rw [← List.head?_reverse]

theorem stripChars_getLast_not_ws {l : List Char} {c : Char}
    (h : (stripChars l).getLast? = some c) : isPyWs c = false := by
  unfold stripChars at h
  rw [getLast?_eq_head?_reverse, List.reverse_reverse] at h
  exact head?_dropWhile_not isPyWs _ h

end SQLNormalizer

/-! ## Claim C6: idempotence of the SQL normalizer -/

/-- A second failure mode of idempotence: tokens re-assembled across a
removed comment are only recognized — and upper-cased — as keywords on the
next pass. -/
theorem normalize_sql_keyword_reassembly :
    SQLNormalizer.normalize_sql "sele/*c*/ct x" = "select x"
    ∧ SQLNormalizer.normalize_sql "select x" = "SELECT x"
    ∧ SQLNormalizer.normalize_sql (SQLNormalizer.normalize_sql "sele/*c*/ct x")
        ≠ SQLNormalizer.normalize_sql "sele/*c*/ct x" := by
  refine ⟨by decide, by decide, ?_⟩
  decide

/-- C2: the Exact Match score is `1.0` exactly when both statements are
non-empty and their normalizations agree, and `0.0` otherwise (in particular
on missing/empty input, where the metric returns instead of raising — the
embedded evaluation is total); `is_correct` holds exactly when the score is
`1.0`. -/
theorem C2_exact_match (context : EvaluationContext) :
    ((ExactMatchMetric.evaluate context).score =
      if context.ground_truth_sql ≠ "" ∧ context.predicted_sql ≠ ""
          ∧ SQLNormalizer.normalize_sql context.ground_truth_sql
            = SQLNormalizer.normalize_sql context.predicted_sql
      then 1 else 0)
    ∧ ((ExactMatchMetric.evaluate context).is_correct = true
        ↔ (ExactMatchMetric.evaluate context).score = 1) := by
  have hev : ExactMatchMetric.evaluate context
      = ExactMatchMetric.evaluate_exact_match context := rfl
  rw [hev]
  unfold ExactMatchMetric.evaluate_exact_match
  by_cases h1 : context.ground_truth_sql = ""
  · simp [h1, create_result]
  · by_cases h2 : context.predicted_sql = ""
    · simp [h1, h2, create_result]
    · by_cases h3 : SQLNormalizer.normalize_sql context.ground_truth_sql
          = SQLNormalizer.normalize_sql context.predicted_sql
      · simp [h1, h2, h3, create_result]
      · simp [h1, h2, h3, create_result]

/-! ## Claim C7: metric evaluation never raises -/

/-- C7: each metric's `evaluate` is exactly `_safe_evaluate` applied to its
inner evaluation (so it is a total function — nothing escapes to the caller),
and whenever the inner evaluation raises, `_safe_evaluate` converts the
exception into a `MetricResult` with score `0.0`, `is_correct` false, and the
exception message recorded. -/
theorem C7_safe_evaluation :
    (∀ context : EvaluationContext,
      ExactMatchMetric.evaluate context
        = safe_evaluate ExactMatchMetric.name
            (fun c => .ok (ExactMatchMetric.evaluate_exact_match c)) context)
    ∧ (∀ (extract : String → ClauseSet) (context : EvaluationContext),
      ComponentMatchingMetric.evaluate extract context
        = safe_evaluate ComponentMatchingMetric.name
            (fun c => .ok (ComponentMatchingMetric.evaluate_components extract c)) context)
    ∧ (∀ context : EvaluationContext,
      ExecutionAccuracyMetric.evaluate context
        = safe_evaluate ExecutionAccuracyMetric.name
            (fun c => .ok (ExecutionAccuracyMetric.evaluate_execution c)) context)
    ∧ (∀ (name : String) (f : EvaluationContext → Except String MetricResult)
        (context : EvaluationContext) (e : String),
      f context = .error e →
        safe_evaluate name f context
          = create_result name 0 false (some ("Error in " ++ name ++ ": " ++ e))) := by
  refine ⟨fun _ => rfl, fun _ _ => rfl, fun _ => rfl, ?_⟩
  intro name f context e hf
  unfold safe_evaluate
  rw [hf]

/-- C7 witness: a raising inner evaluation is converted as claimed. -/
theorem C7_witness :
    ((fun _ : EvaluationContext => (Except.error "boom" : Except String MetricResult))
        ⟨"q1", "q", "g", "p", none, none⟩ = .error "boom")
    ∧ safe_evaluate "Exact Match (EM)"
        (fun _ => .error "boom") ⟨"q1", "q", "g", "p", none, none⟩
      = create_result "Exact Match (EM)" 0 false
          (some ("Error in " ++ "Exact Match (EM)" ++ ": " ++ "boom")) :=
  ⟨rfl, C7_safe_evaluation.2.2.2 "Exact Match (EM)" (fun _ => .error "boom")
    ⟨"q1", "q", "g", "p", none, none⟩ "boom" rfl⟩

/-! ## Claim C10: Execution Accuracy without a database connection -/

/-- C10: with non-empty statements and no database connection, Execution
Accuracy returns the fixed zero-score result demanding a connection; the
result is this constant whatever else the context holds, so no statement is
ever executed, and the embedded evaluation is total (nothing is raised). -/
theorem C10_no_connection (context : EvaluationContext)
    (h1 : context.ground_truth_sql ≠ "") (h2 : context.predicted_sql ≠ "")
    (h3 : context.database_connection = none) :
    ExecutionAccuracyMetric.evaluate context
      = create_result ExecutionAccuracyMetric.name 0 false
          (some "Database connection required for execution accuracy") := by
  show ExecutionAccuracyMetric.evaluate_execution context = _
  unfold ExecutionAccuracyMetric.evaluate_execution
  rw [if_neg (by tauto), h3]

/-- C10 witness. -/
theorem C10_witness :
    (("SELECT 1" : String) ≠ "" ∧ ("SELECT 2" : String) ≠ ""
      ∧ (EvaluationContext.mk "q1" "q" "SELECT 1" "SELECT 2" none none).database_connection
          = none)
    ∧ ExecutionAccuracyMetric.evaluate ⟨"q1", "q", "SELECT 1", "SELECT 2", none, none⟩
      = create_result ExecutionAccuracyMetric.name 0 false
          (some "Database connection required for execution accuracy") :=
  ⟨⟨by decide, by decide, rfl⟩,
    C10_no_connection ⟨"q1", "q", "SELECT 1", "SELECT 2", none, none⟩
      (by decide) (by decide) rfl⟩

/-! ## Claim C9: the question fields are informational only -/

/-- C9: two contexts agreeing on reference SQL, predicted SQL and execution
handle receive identical `MetricResult`s from all three metrics (in
particular the same score and correctness flag), whatever their question
identifier and question text. -/
theorem C9_noninterference (extract : String → ClauseSet)
    (c1 c2 : EvaluationContext)
    (hg : c1.ground_truth_sql = c2.ground_truth_sql)
    (hp : c1.predicted_sql = c2.predicted_sql)
    (hd : c1.database_connection = c2.database_connection) :
    ExactMatchMetric.evaluate c1 = ExactMatchMetric.evaluate c2
    ∧ ComponentMatchingMetric.evaluate extract c1
        = ComponentMatchingMetric.evaluate extract c2
    ∧ ExecutionAccuracyMetric.evaluate c1 = ExecutionAccuracyMetric.evaluate c2 := by
  obtain ⟨i1, q1, g1, p1, d1, t1⟩ := c1
  obtain ⟨i2, q2, g2, p2, d2, t2⟩ := c2
  simp only at hg hp hd
  subst hg hp hd
  exact ⟨rfl, rfl, rfl⟩

/-- C9 witness: concrete contexts differing only in the question fields. -/
theorem C9_witness :
    ((EvaluationContext.mk "q1" "first question" "SELECT a" "SELECT b" none none).ground_truth_sql
        = (EvaluationContext.mk "q2" "second question" "SELECT a" "SELECT b" none none).ground_truth_sql
      ∧ (EvaluationContext.mk "q1" "first question" "SELECT a" "SELECT b" none none).predicted_sql
        = (EvaluationContext.mk "q2" "second question" "SELECT a" "SELECT b" none none).predicted_sql
      ∧ (EvaluationContext.mk "q1" "first question" "SELECT a" "SELECT b" none none).database_connection
        = (EvaluationContext.mk "q2" "second question" "SELECT a" "SELECT b" none none).database_connection)
    ∧ ExactMatchMetric.evaluate ⟨"q1", "first question", "SELECT a", "SELECT b", none, none⟩
        = ExactMatchMetric.evaluate ⟨"q2", "second question", "SELECT a", "SELECT b", none, none⟩ :=
  ⟨⟨rfl, rfl, rfl⟩,
    (C9_noninterference (fun _ _ => "")
      ⟨"q1", "first question", "SELECT a", "SELECT b", none, none⟩
      ⟨"q2", "second question", "SELECT a", "SELECT b", none, none⟩ rfl rfl rfl).1⟩

/-! ## Claim C1: dependency failure does not stop the dependent's executable -/

/-- C1 (divergence witness): in a two-task run where the first task fails and
the second depends on it, the scheduler still invokes the second task's
executable and the returned mapping records it as a success — the
dependency-failure `TaskResult` written for it is overwritten. The `continue`
after recording the dependency failure continues the inner dependency loop,
not the task loop. -/
theorem C1_dependency_failure_still_invokes :
    (DAG.execute ℕ
      [⟨"load", fun _ => .error "boom", []⟩,
       ⟨"score", fun _ => .ok 42, ["load"]⟩] []).lookup "score"
      = some ⟨"score", true, some 42, none⟩
    ∧ (DAG.execute ℕ
      [⟨"load", fun _ => .error "boom", []⟩,
       ⟨"score", fun _ => .ok 42, ["load"]⟩] []).lookup "load"
      = some ⟨"load", false, none, some "boom"⟩ := by
  constructor <;> rfl

/-! ## Claim C3: Execution Accuracy compares result multisets -/

/-- C3: result-set comparison is multiset (permutation) equality of the
normalized rows — order-independent and duplicate-sensitive —, a row-count
difference alone forces a mismatch, two empty result lists match, and when
both statements execute the returned score is exactly `1.0` on a match and
exactly `0.0` otherwise, with `is_correct` the match flag. -/
theorem C3_result_multiset_comparison :
    (∀ gt_results pred_results : List DBRow,
      (ExecutionAccuracyMetric.compare_results gt_results pred_results = true
        ↔ (ExecutionAccuracyMetric.normalize_results pred_results).Perm
            (ExecutionAccuracyMetric.normalize_results gt_results))
      ∧ (gt_results.length ≠ pred_results.length →
          ExecutionAccuracyMetric.compare_results gt_results pred_results = false))
    ∧ ExecutionAccuracyMetric.compare_results [] [] = true
    ∧ (∀ (context : EvaluationContext) (conn : DBConn) (R P : List DBRow),
        context.ground_truth_sql ≠ "" → context.predicted_sql ≠ "" →
        context.database_connection = some conn →
        conn context.ground_truth_sql = .ok R →
        conn context.predicted_sql = .ok P →
        (ExecutionAccuracyMetric.evaluate context).score
            = (if ExecutionAccuracyMetric.compare_results R P then 1 else 0)
        ∧ (ExecutionAccuracyMetric.evaluate context).is_correct
            = ExecutionAccuracyMetric.compare_results R P) := by
  refine ⟨fun gt pred => ⟨?_, ?_⟩, by decide, ?_⟩
  · unfold ExecutionAccuracyMetric.compare_results
    by_cases hlen : gt.length = pred.length
    · rw [if_neg (by simp [hlen])]
      by_cases h0 : gt.length = 0
      · rw [if_pos h0]
        have hg : gt = [] := List.length_eq_zero.1 h0
        have hp : pred = [] := List.length_eq_zero.1 (by omega)
        subst hg hp
        simp [ExecutionAccuracyMetric.normalize_results]
      · rw [if_neg h0, decide_eq_true_eq, Multiset.coe_eq_coe, List.perm_comm]
    · rw [if_pos hlen]
      constructor
      · intro h
        exact absurd h (by simp)
      · intro hperm
        have := hperm.length_eq
        simp only [ExecutionAccuracyMetric.normalize_results, List.length_map] at this
        omega
  · intro hlen
    unfold ExecutionAccuracyMetric.compare_results
    rw [if_pos hlen]
  · intro context conn R P h1 h2 hconn hR hP
    have hev : ExecutionAccuracyMetric.evaluate context
        = ExecutionAccuracyMetric.evaluate_execution context := rfl
    rw [hev]
    unfold ExecutionAccuracyMetric.evaluate_execution
    rw [if_neg (by tauto), hconn]
    simp only [hR, hP]
    exact ⟨rfl, rfl⟩

/-- C3 witness: the specification's own example rows, reordered, plus a
duplicate-sensitivity check, and the score equation at a concrete context. -/
theorem C3_witness :
    ExecutionAccuracyMetric.compare_results
        [[.int 1, .str "a"], [.int 2, .str "b"]]
        [[.int 2, .str "b"], [.int 1, .str "a"]] = true
    ∧ ExecutionAccuracyMetric.compare_results [[.int 1], [.int 1]] [[.int 1]] = false
    ∧ (("SELECT ref" : String) ≠ "" ∧ ("SELECT pred" : String) ≠ "")
    ∧ ((ExecutionAccuracyMetric.evaluate
        ⟨"q1", "q", "SELECT ref", "SELECT pred",
          some (fun sql => if sql = "SELECT ref"
            then .ok [[.int 1, .str "a"], [.int 2, .str "b"]]
            else .ok [[.int 2, .str "b"], [.int 1, .str "a"]]), none⟩).score
        = (if ExecutionAccuracyMetric.compare_results
              [[.int 1, .str "a"], [.int 2, .str "b"]]
              [[.int 2, .str "b"], [.int 1, .str "a"]] then 1 else 0)
      ∧ (ExecutionAccuracyMetric.evaluate
        ⟨"q1", "q", "SELECT ref", "SELECT pred",
          some (fun sql => if sql = "SELECT ref"
            then .ok [[.int 1, .str "a"], [.int 2, .str "b"]]
            else .ok [[.int 2, .str "b"], [.int 1, .str "a"]]), none⟩).is_correct
        = ExecutionAccuracyMetric.compare_results
            [[.int 1, .str "a"], [.int 2, .str "b"]]
            [[.int 2, .str "b"], [.int 1, .str "a"]]) :=
  ⟨by decide, by decide, ⟨by decide, by decide⟩,
    C3_result_multiset_comparison.2.2
      ⟨"q1", "q", "SELECT ref", "SELECT pred",
        some (fun sql => if sql = "SELECT ref"
          then .ok [[.int 1, .str "a"], [.int 2, .str "b"]]
          else .ok [[.int 2, .str "b"], [.int 1, .str "a"]]), none⟩
      (fun sql => if sql = "SELECT ref"
        then .ok [[.int 1, .str "a"], [.int 2, .str "b"]]
        else .ok [[.int 2, .str "b"], [.int 1, .str "a"]])
      [[.int 1, .str "a"], [.int 2, .str "b"]]
      [[.int 2, .str "b"], [.int 1, .str "a"]]
      (by decide) (by decide) rfl (by rfl) (by rfl)⟩

/-! ## Claim C5: alias-flexible projection pairing -/

namespace ImprovedColumnComparator

theorem stripMarkerAux_eq_self : ∀ (n : ℕ) (l : List Char), l.length ≤ n →
    hasMarkerL l = false → stripMarkerAux n l = l
  | 0, l, hn, _ => rfl
  | _ + 1, [], _, _ => rfl
  | n + 1, c :: t, hn, h => by
    rw [hasMarkerL, Bool.or_eq_false_iff] at h
    rw [stripMarkerAux, if_neg (by simp [h.1])]
    rw [stripMarkerAux_eq_self n t (by simp at hn; omega) h.2]

theorem stripMarker_of_no_marker {x : String} (h : hasAliasMarker x = false) :
    stripMarker x = x := by
  unfold stripMarker
  rw [stripMarkerAux_eq_self x.data.length x.data le_rfl h]

end ImprovedColumnComparator

/-- C5: with equal item counts, the flexible projection similarity is the
average over reference items of the best pairwise match; a pair scores `1.0`
when the base expressions agree and both or neither side carries an alias
(so renaming an alias never lowers the score), exactly `0.7` when the bases
agree but only one side carries an alias, `0.0` otherwise; the canonical
alias marker makes the alias spelling invisible; with unequal item counts
the score falls back to the Jaccard similarity of the item sets. -/
theorem C5_projection_pairing :
    (∀ gt_normalized pred_normalized : List String,
      gt_normalized.length = pred_normalized.length → gt_normalized ≠ [] →
      ImprovedColumnComparator.calculate_flexible_similarity gt_normalized pred_normalized
        = (gt_normalized.map (fun gt_item =>
            (pred_normalized.map
              (ImprovedColumnComparator.compare_individual_items gt_item)).foldl max 0)).sum
          / gt_normalized.length)
    ∧ (∀ gt_item pred_item : String,
        ImprovedColumnComparator.compare_individual_items gt_item pred_item
          = if ImprovedColumnComparator.stripMarker gt_item
                = ImprovedColumnComparator.stripMarker pred_item then
              (if ImprovedColumnComparator.hasAliasMarker gt_item
                  = ImprovedColumnComparator.hasAliasMarker pred_item then 1 else 7/10)
            else 0)
    ∧ (∀ expression alias1 alias2 : String,
        ImprovedColumnComparator.create_normalized_expression expression alias1
          = ImprovedColumnComparator.create_normalized_expression expression alias2)
    ∧ (∀ gt_normalized pred_normalized : List String,
        gt_normalized.length ≠ pred_normalized.length →
        ImprovedColumnComparator.calculate_flexible_similarity gt_normalized pred_normalized
          = ImprovedColumnComparator.jaccardSets gt_normalized pred_normalized) := by
  refine ⟨?_, ?_, fun _ _ _ => rfl, ?_⟩
  · intro gt pred hlen hne
    unfold ImprovedColumnComparator.calculate_flexible_similarity
    rw [if_neg (by simp [hlen]), if_neg hne]
  · intro a b
    by_cases hab : a = b
    · subst hab
      simp [ImprovedColumnComparator.compare_individual_items]
    · unfold ImprovedColumnComparator.compare_individual_items
      rw [if_neg hab]
      by_cases ha : ImprovedColumnComparator.hasAliasMarker a = true
      · by_cases hb : ImprovedColumnComparator.hasAliasMarker b = true
        · simp [ha, hb]
        · have hb' : ImprovedColumnComparator.hasAliasMarker b = false := by simpa using hb
          simp [ha, hb', ImprovedColumnComparator.stripMarker_of_no_marker hb']
      · have ha' : ImprovedColumnComparator.hasAliasMarker a = false := by simpa using ha
        by_cases hb : ImprovedColumnComparator.hasAliasMarker b = true
        · simp [ha', hb, ImprovedColumnComparator.stripMarker_of_no_marker ha']
        · have hb' : ImprovedColumnComparator.hasAliasMarker b = false := by simpa using hb
          simp [ha', hb', ImprovedColumnComparator.stripMarker_of_no_marker ha',
            ImprovedColumnComparator.stripMarker_of_no_marker hb', hab]
  · intro gt pred hlen
    unfold ImprovedColumnComparator.calculate_flexible_similarity
    rw [if_pos hlen]

/-- C5 witness: instantiating the pairing formula and the 0.7 partial-credit
case at aliased vs. bare `COUNT(*)` items. -/
theorem C5_witness :
    ((["COUNT(*) AS <alias>"] : List String).length
        = (["COUNT(*)"] : List String).length
      ∧ (["COUNT(*) AS <alias>"] : List String) ≠ [])
    ∧ ImprovedColumnComparator.calculate_flexible_similarity
        ["COUNT(*) AS <alias>"] ["COUNT(*)"]
      = ((["COUNT(*) AS <alias>"].map (fun gt_item =>
          ((["COUNT(*)"] : List String).map
            (ImprovedColumnComparator.compare_individual_items gt_item)).foldl max 0)).sum
        / ((["COUNT(*) AS <alias>"] : List String).length : ℚ))
    ∧ ImprovedColumnComparator.compare_individual_items "COUNT(*) AS <alias>" "COUNT(*)"
      = (if ImprovedColumnComparator.stripMarker "COUNT(*) AS <alias>"
            = ImprovedColumnComparator.stripMarker "COUNT(*)" then
          (if ImprovedColumnComparator.hasAliasMarker "COUNT(*) AS <alias>"
              = ImprovedColumnComparator.hasAliasMarker "COUNT(*)" then 1 else 7/10)
        else 0) :=
  ⟨⟨rfl, by decide⟩,
    C5_projection_pairing.1 ["COUNT(*) AS <alias>"] ["COUNT(*)"] rfl (by decide),
    C5_projection_pairing.2.1 "COUNT(*) AS <alias>" "COUNT(*)"⟩

/-! ## Claim C4: Component Matching weights and ranges -/

namespace ImprovedColumnComparator

theorem jaccardSets_nonneg (g p : List String) : 0 ≤ jaccardSets g p := by
  unfold jaccardSets
  dsimp only
  split
  · exact le_refl 0
  · positivity

theorem jaccardSets_le_one (g p : List String) : jaccardSets g p ≤ 1 := by
  unfold jaccardSets
  dsimp only
  split
  · exact zero_le_one
  · rename_i h
    rw [div_le_one (by exact_mod_cast Nat.pos_of_ne_zero h)]
    exact_mod_cast Finset.card_le_card Finset.inter_subset_union

theorem compare_individual_items_nonneg (a b : String) :
    0 ≤ compare_individual_items a b := by
  unfold compare_individual_items
  split_ifs <;> try norm_num
  all_goals split_ifs <;> norm_num

theorem compare_individual_items_le_one (a b : String) :
    compare_individual_items a b ≤ 1 := by
  unfold compare_individual_items
  split_ifs <;> try norm_num
  all_goals split_ifs <;> norm_num

theorem foldl_max_nonneg (l : List ℚ) (init : ℚ) (h : 0 ≤ init) :
    0 ≤ l.foldl max init := by
  induction l generalizing init with
  | nil => exact h
  | cons a t ih =>
    show 0 ≤ t.foldl max (max init a)
    exact ih (max init a) (le_max_of_le_left h)

theorem foldl_max_le_one (l : List ℚ) (init : ℚ) (hi : init ≤ 1)
    (h : ∀ x ∈ l, x ≤ 1) : l.foldl max init ≤ 1 := by
  induction l generalizing init with
  | nil => exact hi
  | cons a t ih =>
    show t.foldl max (max init a) ≤ 1
    exact ih (max init a) (max_le hi (h a (List.mem_cons_self a t)))
      (fun x hx => h x (List.mem_cons_of_mem a hx))

theorem calculate_flexible_similarity_nonneg (g p : List String) :
    0 ≤ calculate_flexible_similarity g p := by
  unfold calculate_flexible_similarity
  split
  · exact jaccardSets_nonneg g p
  · split
    · exact le_refl 0
    · refine div_nonneg ?_ (by positivity)
      refine List.sum_nonneg ?_
      intro x hx
      rcases List.mem_map.1 hx with ⟨gi, _, rfl⟩
      exact foldl_max_nonneg _ 0 le_rfl

theorem calculate_flexible_similarity_le_one (g p : List String) :
    calculate_flexible_similarity g p ≤ 1 := by
  unfold calculate_flexible_similarity
  split
  · exact jaccardSets_le_one g p
  · split
    · exact zero_le_one
    · rename_i hlen hne
      have hlen0 : 0 < (g.length : ℚ) := by
        have : g.length ≠ 0 := fun h0 => hne (List.length_eq_zero.1 h0)
        exact_mod_cast Nat.pos_of_ne_zero this
      rw [div_le_one hlen0]
      have hbound : ∀ x ∈ g.map (fun gt_item =>
          (p.map (compare_individual_items gt_item)).foldl max 0), x ≤ 1 := by
        intro x hx
        rcases List.mem_map.1 hx with ⟨gi, _, rfl⟩
        refine foldl_max_le_one _ 0 zero_le_one ?_
        intro y hy
        rcases List.mem_map.1 hy with ⟨pi, _, rfl⟩
        exact compare_individual_items_le_one gi pi
      calc (g.map (fun gt_item =>
              (p.map (compare_individual_items gt_item)).foldl max 0)).sum
          ≤ (g.map (fun gt_item =>
              (p.map (compare_individual_items gt_item)).foldl max 0)).length • (1:ℚ) :=
            List.sum_le_card_nsmul _ 1 hbound
        _ = (g.length : ℚ) := by simp

theorem compare_select_items_sim_nonneg (g p : List String) :
    0 ≤ compare_select_items_sim g p := by
  unfold compare_select_items_sim
  dsimp only
  split
  · exact zero_le_one
  · split
    · exact le_refl 0
    · exact calculate_flexible_similarity_nonneg _ _

theorem compare_select_items_sim_le_one (g p : List String) :
    compare_select_items_sim g p ≤ 1 := by
  unfold compare_select_items_sim
  dsimp only
  split
  · exact le_refl 1
  · split
    · exact zero_le_one
    · exact calculate_flexible_similarity_le_one _ _

end ImprovedColumnComparator

namespace ComponentMatchingMetric

theorem jaccardScore_nonneg (g p : List String) : 0 ≤ jaccardScore g p := by
  unfold jaccardScore
  dsimp only
  split
  · exact le_refl 0
  · positivity

theorem jaccardScore_le_one (g p : List String) : jaccardScore g p ≤ 1 := by
  unfold jaccardScore
  dsimp only
  split
  · exact zero_le_one
  · rename_i h
    rw [div_le_one (by exact_mod_cast Nat.pos_of_ne_zero h)]
    exact_mod_cast Finset.card_le_card Finset.inter_subset_union

theorem evaluate_component_nonneg (k : Clause) (g p : String) :
    0 ≤ evaluate_component k g p := by
  cases k
  case select =>
    show 0 ≤ evaluate_select_clause g p
    unfold evaluate_select_clause
    split_ifs
    · norm_num
    · norm_num
    · exact ImprovedColumnComparator.compare_select_items_sim_nonneg _ _
  case from_ =>
    show 0 ≤ evaluate_from_clause g p
    unfold evaluate_from_clause
    dsimp only
    split_ifs
    · norm_num
    · norm_num
    · norm_num
    · norm_num
    · exact jaccardScore_nonneg _ _
  case where_ =>
    show 0 ≤ evaluate_where_clause g p
    unfold evaluate_where_clause
    dsimp only
    split_ifs
    · norm_num
    · norm_num
    · norm_num
    · norm_num
    · exact jaccardScore_nonneg _ _
  case joins =>
    show 0 ≤ evaluate_generic_clause g p
    unfold evaluate_generic_clause
    split_ifs <;> norm_num
  case group_by =>
    show 0 ≤ evaluate_generic_clause g p
    unfold evaluate_generic_clause
    split_ifs <;> norm_num
  case order_by =>
    show 0 ≤ evaluate_generic_clause g p
    unfold evaluate_generic_clause
    split_ifs <;> norm_num
  case having =>
    show 0 ≤ evaluate_generic_clause g p
    unfold evaluate_generic_clause
    split_ifs <;> norm_num
  case limit =>
    show 0 ≤ evaluate_limit_clause g p
    unfold evaluate_limit_clause
    split_ifs <;> norm_num

theorem evaluate_component_le_one (k : Clause) (g p : String) :
    evaluate_component k g p ≤ 1 := by
  cases k
  case select =>
    show evaluate_select_clause g p ≤ 1
    unfold evaluate_select_clause
    split_ifs
    · norm_num
    · norm_num
    · exact ImprovedColumnComparator.compare_select_items_sim_le_one _ _
  case from_ =>
    show evaluate_from_clause g p ≤ 1
    unfold evaluate_from_clause
    dsimp only
    split_ifs
    · norm_num
    · norm_num
    · norm_num
    · norm_num
    · exact jaccardScore_le_one _ _
  case where_ =>
    show evaluate_where_clause g p ≤ 1
    unfold evaluate_where_clause
    dsimp only
    split_ifs
    · norm_num
    · norm_num
    · norm_num
    · norm_num
    · exact jaccardScore_le_one _ _
  case joins =>
    show evaluate_generic_clause g p ≤ 1
    unfold evaluate_generic_clause
    split_ifs <;> norm_num
  case group_by =>
    show evaluate_generic_clause g p ≤ 1
    unfold evaluate_generic_clause
    split_ifs <;> norm_num
  case order_by =>
    show evaluate_generic_clause g p ≤ 1
    unfold evaluate_generic_clause
    split_ifs <;> norm_num
  case having =>
    show evaluate_generic_clause g p ≤ 1
    unfold evaluate_generic_clause
    split_ifs <;> norm_num
  case limit =>
    show evaluate_limit_clause g p ≤ 1
    unfold evaluate_limit_clause
    split_ifs <;> norm_num

end ComponentMatchingMetric

/-- C4: for every extractor and every context with non-empty reference and
predicted SQL, the Component Matching score is the weighted sum of the eight
per-clause scores, each clause score lies in `[0,1]`, the fixed weights
(projection 0.25, source 0.20, filter 0.20, joins 0.15, grouping 0.10,
ordering 0.05, having 0.03, limit 0.02) sum to `1.0`, and `is_correct` holds
exactly when the weighted sum reaches `0.8`. -/
theorem C4_weighted_components (extract : String → ClauseSet)
    (context : EvaluationContext)
    (h1 : context.ground_truth_sql ≠ "") (h2 : context.predicted_sql ≠ "") :
    ComponentMatchingSpec extract context := by
  have hev : ComponentMatchingMetric.evaluate extract context
      = ComponentMatchingMetric.evaluate_components extract context := rfl
  have hcomp : ComponentMatchingMetric.evaluate_components extract context
      = create_result ComponentMatchingMetric.name
          ((ComponentMatchingMetric.clauseKinds.map (fun k =>
            ComponentMatchingMetric.evaluate_component k
                (extract context.ground_truth_sql k) (extract context.predicted_sql k)
              * ComponentMatchingMetric.clause_weights k)).sum)
          (decide ((ComponentMatchingMetric.clauseKinds.map (fun k =>
            ComponentMatchingMetric.evaluate_component k
                (extract context.ground_truth_sql k) (extract context.predicted_sql k)
              * ComponentMatchingMetric.clause_weights k)).sum ≥ 8/10)) none := by
    unfold ComponentMatchingMetric.evaluate_components
    rw [if_neg (by tauto)]
  refine ⟨?_, ?_, ?_, ?_⟩
  · rw [hev, hcomp]
    rfl
  · intro k _
    exact ⟨ComponentMatchingMetric.evaluate_component_nonneg k _ _,
      ComponentMatchingMetric.evaluate_component_le_one k _ _⟩
  · simp [ComponentMatchingMetric.clauseKinds, ComponentMatchingMetric.clause_weights]
    norm_num
  · rw [hev, hcomp]
    simp [create_result, decide_eq_true_eq]

/-- C4 witness: a concrete extractor and context (all clauses empty on both
sides, every clause score `1.0`, weighted sum `1.0`, correct). -/
theorem C4_witness :
    (("SELECT 1" : String) ≠ "" ∧ ("SELECT 1" : String) ≠ "")
    ∧ ComponentMatchingSpec (fun _ _ => "")
        ⟨"q1", "q", "SELECT 1", "SELECT 1", none, none⟩ :=
  ⟨⟨by decide, by decide⟩,
    C4_weighted_components (fun _ _ => "")
      ⟨"q1", "q", "SELECT 1", "SELECT 1", none, none⟩ (by decide) (by decide)⟩

/-! ## Claim C8: aggregation is exact -/

theorem em_correct_iff_threshold (context : EvaluationContext) :
    decide ((8:ℚ)/10 ≤ (ExactMatchMetric.evaluate context).score)
      = (ExactMatchMetric.evaluate context).is_correct := by
  have hev : ExactMatchMetric.evaluate context
      = ExactMatchMetric.evaluate_exact_match context := rfl
  rw [hev]
  by_cases h1 : context.ground_truth_sql = "" ∨ context.predicted_sql = ""
  · have hr : ExactMatchMetric.evaluate_exact_match context
        = create_result ExactMatchMetric.name 0 false none := by
      unfold ExactMatchMetric.evaluate_exact_match
      rw [if_pos h1]
    rw [hr]
    exact decide_eq_false (by norm_num [create_result])
  · by_cases h3 : SQLNormalizer.normalize_sql context.ground_truth_sql
        = SQLNormalizer.normalize_sql context.predicted_sql
    · have hr : ExactMatchMetric.evaluate_exact_match context
          = create_result ExactMatchMetric.name 1 true none := by
        unfold ExactMatchMetric.evaluate_exact_match
        rw [if_neg h1]
        dsimp only
        rw [if_pos h3, decide_eq_true h3]
      rw [hr]
      exact decide_eq_true (by norm_num [create_result])
    · have hr : ExactMatchMetric.evaluate_exact_match context
          = create_result ExactMatchMetric.name 0 false none := by
        unfold ExactMatchMetric.evaluate_exact_match
        rw [if_neg h1]
        dsimp only
        rw [if_neg h3, decide_eq_false h3]
      rw [hr]
      exact decide_eq_false (by norm_num [create_result])

theorem cm_correct_iff_threshold (extract : String → ClauseSet)
    (context : EvaluationContext) :
    decide ((8:ℚ)/10 ≤ (ComponentMatchingMetric.evaluate extract context).score)
      = (ComponentMatchingMetric.evaluate extract context).is_correct := by
  have hev : ComponentMatchingMetric.evaluate extract context
      = ComponentMatchingMetric.evaluate_components extract context := rfl
  rw [hev]
  unfold ComponentMatchingMetric.evaluate_components
  by_cases h1 : context.ground_truth_sql = "" ∨ context.predicted_sql = ""
  · rw [if_pos h1]
    exact decide_eq_false (by norm_num [create_result])
  · rw [if_neg h1]
    rfl

theorem ex_correct_iff_threshold (context : EvaluationContext) :
    decide ((8:ℚ)/10 ≤ (ExecutionAccuracyMetric.evaluate context).score)
      = (ExecutionAccuracyMetric.evaluate context).is_correct := by
  have hev : ExecutionAccuracyMetric.evaluate context
      = ExecutionAccuracyMetric.evaluate_execution context := rfl
  rw [hev]
  unfold ExecutionAccuracyMetric.evaluate_execution
  by_cases h1 : context.ground_truth_sql = "" ∨ context.predicted_sql = ""
  · rw [if_pos h1]
    exact decide_eq_false (by norm_num [create_result])
  · rw [if_neg h1]
    cases hdb : context.database_connection with
    | none => exact decide_eq_false (by norm_num [create_result])
    | some conn =>
      dsimp only
      cases hg : conn context.ground_truth_sql with
      | error e => exact decide_eq_false (by norm_num [create_result])
      | ok R =>
        cases hp : conn context.predicted_sql with
        | error e => exact decide_eq_false (by norm_num [create_result])
        | ok P =>
          dsimp only
          by_cases hm : ExecutionAccuracyMetric.compare_results R P = true
          · rw [hm]
            simp only [if_true]
            exact decide_eq_true (by norm_num [create_result])
          · have hm' : ExecutionAccuracyMetric.compare_results R P = false := by
              simpa using hm
            rw [hm']
            simp only [Bool.false_eq_true, if_false]
            exact decide_eq_false (by norm_num [create_result])

theorem aggregation_spec_of (rs : List MetricResult) (hne : rs ≠ [])
    (h : ∀ r ∈ rs, decide ((8:ℚ)/10 ≤ r.score) = r.is_correct) :
    AggregationSpec rs := by
  have hne' : rs.map MetricResult.score ≠ [] := by
    intro h0
    exact hne (by simpa using h0)
  unfold AggregationSpec aggregate_metric
  rw [if_neg hne']
  constructor
  · simp
  · have hcount : (rs.map MetricResult.score).countP (fun s => decide ((8:ℚ)/10 ≤ s))
        = rs.countP (fun r => r.is_correct) := by
      rw [List.countP_map]
      refine List.countP_congr ?_
      intro r hr
      show decide ((8:ℚ)/10 ≤ r.score) = true ↔ r.is_correct = true
      rw [h r hr]
    simp only [hcount, List.length_map]

/-- C8: the reported `average_score` is exactly the arithmetic mean of the
scores, and for each of the three metrics the reported `accuracy` is exactly
the fraction of evaluated examples that the metric itself marked correct —
the aggregator's uniform `score >= 0.8` test coincides with Exact Match's
exact-equality criterion and Execution Accuracy's multiset-equality
criterion because those metrics only emit scores `0.0` or `1.0`, and with
Component Matching's own `>= 0.8` threshold. -/
theorem C8_aggregation :
    (∀ scores : List ℚ, scores ≠ [] →
      (aggregate_metric scores).average_score = scores.sum / scores.length)
    ∧ (∀ ctxs : List EvaluationContext, ctxs ≠ [] →
        AggregationSpec (ctxs.map ExactMatchMetric.evaluate))
    ∧ (∀ (extract : String → ClauseSet) (ctxs : List EvaluationContext), ctxs ≠ [] →
        AggregationSpec (ctxs.map (ComponentMatchingMetric.evaluate extract)))
    ∧ (∀ ctxs : List EvaluationContext, ctxs ≠ [] →
        AggregationSpec (ctxs.map ExecutionAccuracyMetric.evaluate)) := by
  refine ⟨?_, ?_, ?_, ?_⟩
  · intro scores hne
    unfold aggregate_metric
    rw [if_neg hne]
  · intro ctxs hne
    refine aggregation_spec_of _ (by simpa using hne) ?_
    intro r hr
    rcases List.mem_map.1 hr with ⟨ctx, _, rfl⟩
    exact em_correct_iff_threshold ctx
  · intro extract ctxs hne
    refine aggregation_spec_of _ (by simpa using hne) ?_
    intro r hr
    rcases List.mem_map.1 hr with ⟨ctx, _, rfl⟩
    exact cm_correct_iff_threshold extract ctx
  · intro ctxs hne
    refine aggregation_spec_of _ (by simpa using hne) ?_
    intro r hr
    rcases List.mem_map.1 hr with ⟨ctx, _, rfl⟩
    exact ex_correct_iff_threshold ctx

/-- C8 witness: the mean formula at a two-score list and the accuracy link
for Exact Match at a singleton example list. -/
theorem C8_witness :
    (([1, 0] : List ℚ) ≠ []
      ∧ (aggregate_metric [1, 0]).average_score
          = ([1, 0] : List ℚ).sum / (([1, 0] : List ℚ).length : ℚ))
    ∧ (([⟨"q1", "q", "SELECT a", "SELECT a", none, none⟩] : List EvaluationContext) ≠ []
      ∧ AggregationSpec
          (([⟨"q1", "q", "SELECT a", "SELECT a", none, none⟩]
            : List EvaluationContext).map ExactMatchMetric.evaluate)) :=
  ⟨⟨by simp, C8_aggregation.1 [1, 0] (by simp)⟩,
    ⟨by simp, C8_aggregation.2.1 [⟨"q1", "q", "SELECT a", "SELECT a", none, none⟩]
      (by simp)⟩⟩
